import Mathlib

/-!
Shallow embedding of the plasma Python binding (`src/cpp/src/plasma/extension.cc`).

Each `PyPlasma_*` function below embeds the argument handling and result
construction of the corresponding C function. The external plasma client
(`plasma/client.cc`, not part of the sources) is treated as an oracle: the
values it writes into out-parameters (object statuses, object buffers, the
created data buffer, the digest, status codes) are taken as explicit inputs
of the embedded functions. `ARROW_CHECK` / `ARROW_CHECK_OK` failures abort
the process; they are modelled by the distinguished outcome `PyErr.FatalAbort`,
which is not a Python exception.
-/

namespace Plasma

deriving instance DecidableEq for Except

/-- Object identifiers: fixed-width opaque byte strings, modelled as naturals. -/
abbrev ObjectID := Nat

/-- The status the client writes into an object request during `Wait`
(`ObjectStatus_Local`, `ObjectStatus_Remote`, `ObjectStatus_Nonexistent`). -/
inductive ObjectStatus where
  | Local
  | Remote
  | Nonexistent
deriving DecidableEq, Repr

/-- Query scope of an object request (`PLASMA_QUERY_LOCAL` / `PLASMA_QUERY_ANYWHERE`). -/
inductive ObjectRequestType where
  | PLASMA_QUERY_LOCAL
  | PLASMA_QUERY_ANYWHERE
deriving DecidableEq, Repr

/-- An object request as constructed by `PyPlasma_wait` before the client call:
only the identifier and the query scope are set. -/
structure ObjectRequest where
  object_id : ObjectID
  type : ObjectRequestType
deriving DecidableEq, Repr

/-- Python-level error outcomes raised by the binding, one constructor per
exception type used in `extension.cc`; `FatalAbort` models an `ARROW_CHECK`
process abort, which is not a raised Python exception. -/
inductive PyErr where
  | RuntimeError (msg : String)
  | TypeError (msg : String)
  | PlasmaObjectExistsError (msg : String)
  | PlasmaOutOfMemoryError (msg : String)
  | FatalAbort (msg : String)
deriving DecidableEq, Repr

/-- The connectivity error raised when the manager file descriptor is -1. -/
def notConnectedError : PyErr :=
  .RuntimeError "Not connected to the plasma manager"

/-- A status is ready when it is `Local` or `Remote` (extension.cc lines 278-279). -/
def isReady : ObjectStatus → Bool
  | .Local => true
  | .Remote => true
  | .Nonexistent => false

/-- Result of `PyPlasma_wait`: the list of ready ids and the Python set of
remaining ids (the set is modelled as a duplicate-free list; only membership
is meaningful). -/
structure WaitResult where
  ready_ids : List ObjectID
  remaining_ids : List ObjectID
deriving DecidableEq, Repr

/-- The request-building loop of `PyPlasma_wait` (extension.cc lines 258-263):
every request gets the scope `PLASMA_QUERY_ANYWHERE`. -/
def buildObjectRequests (object_id_list : List ObjectID) : List ObjectRequest :=
  object_id_list.map fun oid => { object_id := oid, type := .PLASMA_QUERY_ANYWHERE }

/-- Modelled from the spec: `PlasmaClient::Wait` (plasma client, not under the
sources) blocks until enough requests are ready or the timeout elapses, writes
an observed status into every request, and reports the number of ready
requests. Here the written statuses are an input and the reported count
(`num_return_objects`) is the number of ready requests. -/
def clientWaitNumReady (filled : List (ObjectID × ObjectStatus)) : Nat :=
  (filled.filter fun p => isReady p.2).length

/-- The selection loop of `PyPlasma_wait` (extension.cc lines 275-290): scan
requests in input order, append ids whose status is ready until
`num_to_return` have been taken. The trailing
`ARROW_CHECK(num_returned == num_to_return)` failing is modelled as `none`. -/
def selectReady : List (ObjectID × ObjectStatus) → Nat → Option (List ObjectID)
  | _, 0 => some []
  | [], _ + 1 => none
  | p :: rest, k + 1 =>
    if isReady p.2 then (selectReady rest k).map fun l => p.1 :: l
    else selectReady rest (k + 1)

/-- `PyPlasma_wait` (extension.cc lines 226-296). `manager_fd` is the value of
`client->get_manager_fd()`; `statuses` are the observed statuses the client
writes into the requests, in input order. -/
def PyPlasma_wait (manager_fd : Int) (object_id_list : List ObjectID)
    (timeout : Int) (num_returns : Int) (statuses : List ObjectStatus) :
    Except PyErr WaitResult :=
  let n : Int := object_id_list.length
  if manager_fd = -1 then
    .error notConnectedError
  else if num_returns < 0 then
    .error (.RuntimeError "The argument num_returns cannot be less than zero.")
  else if num_returns > n then
    .error (.RuntimeError "The argument num_returns cannot be greater than len(object_ids)")
  else if timeout > 2 ^ 30 then
    .error (.RuntimeError "The argument timeout cannot be greater than 2 ** 30.")
  else
    let object_requests := buildObjectRequests object_id_list
    let filled := (object_requests.map fun r => r.object_id).zip statuses
    let num_return_objects := clientWaitNumReady filled
    let num_to_return := min num_return_objects num_returns.toNat
    match selectReady filled num_to_return with
    | none => .error (.FatalAbort "num_returned == num_to_return")
    | some ready =>
      .ok { ready_ids := ready,
            remaining_ids := object_id_list.dedup.filter fun x => !(ready.contains x) }

/-- The ready ids of a wait call in input order: ids whose observed status is
`Local` or `Remote`. -/
def readyIdsAll (ids : List ObjectID) (statuses : List ObjectStatus) : List ObjectID :=
  ((ids.zip statuses).filter fun p => isReady p.2).map Prod.fst

/-- The three precondition (usage) errors of `PyPlasma_wait`. -/
def waitUsageErrors : List PyErr :=
  [.RuntimeError "The argument num_returns cannot be less than zero.",
   .RuntimeError "The argument num_returns cannot be greater than len(object_ids)",
   .RuntimeError "The argument timeout cannot be greater than 2 ** 30."]

/-- Whether an error is one of the wait usage errors. -/
def isWaitUsageError (e : PyErr) : Bool := waitUsageErrors.contains e

/-- A Python memory view over a byte buffer, as produced by
`PyMemoryView_FromMemory`: `writable` is true for `PyBUF_WRITE` and false for
`PyBUF_READ`. -/
structure MemoryView where
  mem : List Nat
  len : Int
  writable : Bool
deriving DecidableEq, Repr

/-- The metadata argument of `PyPlasma_create`, as seen by `PyByteArray_Check`:
either a Python bytearray or some other Python object. -/
inductive MetadataArg where
  | bytearray (bytes : List Nat)
  | notByteArray
deriving DecidableEq, Repr

/-- The status codes of the client call results the binding inspects:
`Status::ok`, `IsPlasmaObjectExists`, `IsPlasmaStoreFull`, anything else. -/
inductive Status where
  | Ok
  | PlasmaObjectExists
  | PlasmaStoreFull
  | OtherError
deriving DecidableEq, Repr

/-- `PyPlasma_create` (extension.cc lines 59-95). `s` is the status returned by
`client->Create` and `data` the buffer the client maps into `*data`; a status
other than the three inspected ones trips `ARROW_CHECK(s.ok())`. -/
def PyPlasma_create (object_id : ObjectID) (size : Int) (metadata : MetadataArg)
    (s : Status) (data : List Nat) : Except PyErr MemoryView :=
  match metadata with
  | .notByteArray => .error (.TypeError "metadata must be a bytearray")
  | .bytearray _ =>
    match s with
    | .PlasmaObjectExists =>
      .error (.PlasmaObjectExistsError
        "An object with this ID already exists in the plasma store.")
    | .PlasmaStoreFull =>
      .error (.PlasmaOutOfMemoryError
        "The plasma store ran out of memory and could not create this object.")
    | .OtherError => .error (.FatalAbort "s.ok()")
    | .Ok => .ok { mem := data, len := size, writable := true }

/-- Modelled from the spec: `kDigestSize` (plasma common header, not under the
sources) is the fixed size of a content digest; the spec fixes only that it is
a constant, so the concrete value stands in for any fixed size. -/
def kDigestSize : Nat := 8

/-- `PyPlasma_hash` (extension.cc lines 97-113). `success` is the boolean
returned by `plasma_compute_object_hash` and `digest` the contents of the
`unsigned char digest[kDigestSize]` buffer it fills. -/
def PyPlasma_hash (success : Bool) (digest : List Nat) :
    Except PyErr (Option (List Nat)) :=
  if success then .ok (some digest) else .ok none

/-- An object buffer as filled in by `client->Get`: a data size of -1 marks an
object that was not retrieved. -/
structure ObjectBuffer where
  data_size : Int
  data : List Nat
  metadata_size : Int
  metadata : List Nat
deriving DecidableEq, Repr

/-- `PyPlasma_get` (extension.cc lines 137-187). `object_buffers` are the
buffers `client->Get` fills, one per input id in input order; retrieved objects
become read-only (data, metadata) memory-view pairs, the rest become `none`. -/
def PyPlasma_get (object_id_list : List ObjectID) (timeout_ms : Int)
    (object_buffers : List ObjectBuffer) : List (Option (MemoryView × MemoryView)) :=
  object_buffers.map fun ob =>
    if ob.data_size ≠ -1 then
      some ({ mem := ob.data, len := ob.data_size, writable := false },
            { mem := ob.metadata, len := ob.metadata_size, writable := false })
    else
      none

/-- `PyPlasma_fetch` (extension.cc lines 206-224). `s` is the status returned
by `client->Fetch`, checked by `ARROW_CHECK_OK`. -/
def PyPlasma_fetch (manager_fd : Int) (object_id_list : List ObjectID)
    (s : Status) : Except PyErr Unit :=
  if manager_fd = -1 then
    .error notConnectedError
  else
    match s with
    | .Ok => .ok ()
    | _ => .error (.FatalAbort "client->Fetch")

/-- `PyPlasma_transfer` (extension.cc lines 320-337). `s` is the status
returned by `client->Transfer`, checked by `ARROW_CHECK_OK`. -/
def PyPlasma_transfer (manager_fd : Int) (addr : String) (port : Int)
    (object_id : ObjectID) (s : Status) : Except PyErr Unit :=
  if manager_fd = -1 then
    .error notConnectedError
  else
    match s with
    | .Ok => .ok ()
    | _ => .error (.FatalAbort "client->Transfer")

/-- A decoded notification flatbuffer (`ObjectInfo`): identifier bytes, a
deletion flag and the two size fields. -/
structure ObjectInfo where
  object_id : List Nat
  is_deletion : Bool
  data_size : Int
  metadata_size : Int
deriving DecidableEq, Repr

/-- `PyPlasma_receive_notification` (extension.cc lines 348-377).
`notification` is the frame `read_message_async` returns, `none` when the read
failed; a deletion frame decodes to sizes (-1, -1), any other frame to its own
size fields. -/
def PyPlasma_receive_notification (notification : Option ObjectInfo) :
    Except PyErr (List Nat × Int × Int) :=
  match notification with
  | none =>
    .error (.RuntimeError "Failed to read object notification from Plasma socket")
  | some object_info =>
    if object_info.is_deletion then
      .ok (object_info.object_id, -1, -1)
    else
      .ok (object_info.object_id, object_info.data_size, object_info.metadata_size)

/-- The notification frame contract of the spec (section 6): a creation frame
carries nonnegative data and metadata sizes. -/
def WellFormedFrame (object_info : ObjectInfo) : Prop :=
  object_info.is_deletion = false →
    0 ≤ object_info.data_size ∧ 0 ≤ object_info.metadata_size

instance (object_info : ObjectInfo) : Decidable (WellFormedFrame object_info) := by
  unfold WellFormedFrame
  infer_instance

/-! ## Helper lemmas -/

/-- The request-building loop preserves the input ids. -/
lemma buildObjectRequests_ids (l : List ObjectID) :
    (buildObjectRequests l).map (fun r => r.object_id) = l := by
  induction l with
  | nil => rfl
  | cons a l ih =>
    simp only [buildObjectRequests, List.map_cons] at ih ⊢
    rw [ih]

/-- When the quota is at most the number of ready requests, the selection loop
succeeds and returns the first `k` ready ids in input order. -/
lemma selectReady_eq_take (l : List (ObjectID × ObjectStatus)) (k : Nat)
    (hk : k ≤ (l.filter fun p => isReady p.2).length) :
    selectReady l k = some (((l.filter fun p => isReady p.2).map Prod.fst).take k) := by
  induction l generalizing k with
  | nil =>
    cases k with
    | zero => simp [selectReady]
    | succ k => simp at hk
  | cons p rest ih =>
    cases k with
    | zero => simp [selectReady]
    | succ k =>
      by_cases hp : isReady p.2
      · rw [List.filter_cons_of_pos (by simpa using hp)] at hk ⊢
        have hk' : k ≤ (rest.filter fun q => isReady q.2).length := by
          simpa using Nat.succ_le_succ_iff.mp hk
        simp [selectReady, hp, ih k hk']
      · rw [List.filter_cons_of_neg (by simpa using hp)] at hk ⊢
        simp [selectReady, hp, ih (k + 1) hk]

/-- On any call that passes all four precondition checks, `PyPlasma_wait`
returns the first `min(ready-count, num_returns)` ready ids in input order
and the input id set minus those selected ids. -/
lemma PyPlasma_wait_ok (fd : Int) (ids : List ObjectID) (timeout num_returns : Int)
    (statuses : List ObjectStatus) (hfd : ¬ fd = -1) (h0 : ¬ num_returns < 0)
    (hn : ¬ num_returns > (ids.length : Int)) (ht : ¬ timeout > 2 ^ 30) :
    PyPlasma_wait fd ids timeout num_returns statuses =
      .ok { ready_ids := (readyIdsAll ids statuses).take
              (min (readyIdsAll ids statuses).length num_returns.toNat),
            remaining_ids := ids.dedup.filter fun x =>
              !(((readyIdsAll ids statuses).take
                  (min (readyIdsAll ids statuses).length num_returns.toNat)).contains x) } := by
  unfold PyPlasma_wait
  rw [if_neg hfd, if_neg h0, if_neg hn, if_neg ht]
  simp only [buildObjectRequests_ids]
  have hsel := selectReady_eq_take (ids.zip statuses)
    (min (clientWaitNumReady (ids.zip statuses)) num_returns.toNat)
    (by simp [clientWaitNumReady])
  rw [hsel]
  simp [readyIdsAll, clientWaitNumReady]

/-- A wait call with the manager channel present and a negative `num_returns`
reports the corresponding usage error. -/
lemma PyPlasma_wait_neg_returns (fd : Int) (ids : List ObjectID)
    (timeout num_returns : Int) (statuses : List ObjectStatus)
    (hfd : ¬ fd = -1) (h0 : num_returns < 0) :
    PyPlasma_wait fd ids timeout num_returns statuses =
      .error (.RuntimeError "The argument num_returns cannot be less than zero.") := by
  unfold PyPlasma_wait
  rw [if_neg hfd, if_pos h0]

/-- A wait call with the manager channel present and `num_returns` above the
list length reports the corresponding usage error. -/
lemma PyPlasma_wait_excess_returns (fd : Int) (ids : List ObjectID)
    (timeout num_returns : Int) (statuses : List ObjectStatus)
    (hfd : ¬ fd = -1) (h0 : ¬ num_returns < 0) (hn : num_returns > (ids.length : Int)) :
    PyPlasma_wait fd ids timeout num_returns statuses =
      .error (.RuntimeError "The argument num_returns cannot be greater than len(object_ids)") := by
  unfold PyPlasma_wait
  rw [if_neg hfd, if_neg h0, if_pos hn]

/-- A wait call with the manager channel present and a timeout above 2^30
reports the corresponding usage error. -/
lemma PyPlasma_wait_excess_timeout (fd : Int) (ids : List ObjectID)
    (timeout num_returns : Int) (statuses : List ObjectStatus)
    (hfd : ¬ fd = -1) (h0 : ¬ num_returns < 0) (hn : ¬ num_returns > (ids.length : Int))
    (ht : timeout > 2 ^ 30) :
    PyPlasma_wait fd ids timeout num_returns statuses =
      .error (.RuntimeError "The argument timeout cannot be greater than 2 ** 30.") := by
  unfold PyPlasma_wait
  rw [if_neg hfd, if_neg h0, if_neg hn, if_pos ht]

/-! ## Claim theorems -/

/-- C1: a wait call that passes the precondition checks returns exactly
min(num_returns, number-of-ready-ids) ready ids, namely the first ids in input
order whose observed status is Local or Remote, and its remaining_ids is the
set of input ids minus the selected ready ids (unselected-but-ready and
Nonexistent ids both stay in remaining_ids). -/
theorem wait_ready_selection (fd : Int) (ids : List ObjectID)
    (timeout num_returns : Int) (statuses : List ObjectStatus)
    (hfd : fd ≠ -1) (h0 : 0 ≤ num_returns) (hn : num_returns ≤ (ids.length : Int))
    (ht : timeout ≤ 2 ^ 30) (hs : statuses.length = ids.length) :
    ∃ r, PyPlasma_wait fd ids timeout num_returns statuses = .ok r ∧
      r.ready_ids = (readyIdsAll ids statuses).take
        (min num_returns.toNat (readyIdsAll ids statuses).length) ∧
      r.ready_ids.length = min num_returns.toNat (readyIdsAll ids statuses).length ∧
      (∀ x, x ∈ r.remaining_ids ↔ x ∈ ids ∧ x ∉ r.ready_ids) := by
  refine ⟨_, PyPlasma_wait_ok fd ids timeout num_returns statuses hfd
    (not_lt.mpr h0) (not_lt.mpr hn) (not_lt.mpr ht), ?_, ?_, ?_⟩
  · rw [Nat.min_comm]
  · simp [List.length_take]
    omega
  · intro x
    simp [List.mem_filter, List.mem_dedup]

/-- Witness for C1 at a concrete call: three ids, two of them ready. -/
theorem wait_ready_selection_witness :
    ∃ r, PyPlasma_wait 0 [10, 20, 30] 5 2 [.Nonexistent, .Local, .Remote] = .ok r ∧
      r.ready_ids = (readyIdsAll [10, 20, 30] [.Nonexistent, .Local, .Remote]).take
        (min (Int.toNat 2)
          (readyIdsAll [10, 20, 30] [.Nonexistent, .Local, .Remote]).length) ∧
      r.ready_ids.length = min (Int.toNat 2)
        (readyIdsAll [10, 20, 30] [.Nonexistent, .Local, .Remote]).length ∧
      (∀ x, x ∈ r.remaining_ids ↔ x ∈ [10, 20, 30] ∧ x ∉ r.ready_ids) :=
  wait_ready_selection 0 [10, 20, 30] 5 2 [.Nonexistent, .Local, .Remote]
    (by decide) (by decide) (by decide) (by decide) (by decide)

/-- C2 counterexample: with the manager channel absent, a call whose
`num_returns` is negative reports the connectivity error, not one of the three
usage errors, so the claim as stated fails. -/
theorem wait_usage_error_counterexample :
    ((-1 : Int) < 0) ∧
    PyPlasma_wait (-1) [] 0 (-1) [] = .error notConnectedError ∧
    isWaitUsageError notConnectedError = false :=
  ⟨by decide, by decide, by decide⟩

/-- C2 (amended): with the manager channel present, wait reports a usage error
exactly when `num_returns < 0`, `num_returns > len(ids)` or `timeout > 2^30`,
and on a violated precondition the outcome does not depend on the store's wait
observation; moreover a call satisfying the preconditions never reports a
usage error. -/
theorem wait_preconditions (fd : Int) (ids : List ObjectID)
    (timeout num_returns : Int) (statuses : List ObjectStatus) (hfd : fd ≠ -1) :
    ((∃ e, PyPlasma_wait fd ids timeout num_returns statuses = .error e ∧
        isWaitUsageError e = true) ↔
      (num_returns < 0 ∨ num_returns > (ids.length : Int) ∨ timeout > 2 ^ 30)) ∧
    ((num_returns < 0 ∨ num_returns > (ids.length : Int) ∨ timeout > 2 ^ 30) →
      ∀ statuses2, PyPlasma_wait fd ids timeout num_returns statuses2 =
        PyPlasma_wait fd ids timeout num_returns statuses) := by
  by_cases h0 : num_returns < 0
  · refine ⟨⟨fun _ => Or.inl h0, fun _ => ?_⟩, fun _ statuses2 => ?_⟩
    · exact ⟨_, PyPlasma_wait_neg_returns fd ids timeout num_returns statuses hfd h0,
        by decide⟩
    · rw [PyPlasma_wait_neg_returns fd ids timeout num_returns statuses2 hfd h0,
        PyPlasma_wait_neg_returns fd ids timeout num_returns statuses hfd h0]
  · by_cases hn : num_returns > (ids.length : Int)
    · refine ⟨⟨fun _ => Or.inr (Or.inl hn), fun _ => ?_⟩, fun _ statuses2 => ?_⟩
      · exact ⟨_, PyPlasma_wait_excess_returns fd ids timeout num_returns statuses hfd h0 hn,
          by decide⟩
      · rw [PyPlasma_wait_excess_returns fd ids timeout num_returns statuses2 hfd h0 hn,
          PyPlasma_wait_excess_returns fd ids timeout num_returns statuses hfd h0 hn]
    · by_cases ht : timeout > 2 ^ 30
      · refine ⟨⟨fun _ => Or.inr (Or.inr ht), fun _ => ?_⟩, fun _ statuses2 => ?_⟩
        · exact ⟨_, PyPlasma_wait_excess_timeout fd ids timeout num_returns statuses
            hfd h0 hn ht, by decide⟩
        · rw [PyPlasma_wait_excess_timeout fd ids timeout num_returns statuses2 hfd h0 hn ht,
            PyPlasma_wait_excess_timeout fd ids timeout num_returns statuses hfd h0 hn ht]
      · refine ⟨⟨fun he => ?_, fun hv => absurd hv (by tauto)⟩,
          fun hv _ => absurd hv (by tauto)⟩
        obtain ⟨e, he, _⟩ := he
        rw [PyPlasma_wait_ok fd ids timeout num_returns statuses hfd h0 hn ht] at he
        exact absurd he (by simp)

/-- Witness for C2 (amended) at a concrete call with the manager present. -/
theorem wait_preconditions_witness :
    ((∃ e, PyPlasma_wait 0 [] 0 0 [] = .error e ∧ isWaitUsageError e = true) ↔
      ((0 : Int) < 0 ∨ (0 : Int) > (([] : List ObjectID).length : Int) ∨
        (0 : Int) > 2 ^ 30)) ∧
    (((0 : Int) < 0 ∨ (0 : Int) > (([] : List ObjectID).length : Int) ∨
        (0 : Int) > 2 ^ 30) →
      ∀ statuses2, PyPlasma_wait 0 [] 0 0 statuses2 = PyPlasma_wait 0 [] 0 0 []) :=
  wait_preconditions 0 [] 0 0 [] (by decide)

/-- C8: a wait call with `num_returns = 0` that passes the precondition checks
returns an empty ready_ids and all input ids in remaining_ids, whatever the
observed statuses are. -/
theorem wait_zero_num_returns (fd : Int) (ids : List ObjectID) (timeout : Int)
    (statuses : List ObjectStatus) (hfd : fd ≠ -1) (ht : timeout ≤ 2 ^ 30) :
    ∃ r, PyPlasma_wait fd ids timeout 0 statuses = .ok r ∧
      r.ready_ids = [] ∧ ∀ x, x ∈ r.remaining_ids ↔ x ∈ ids := by
  refine ⟨_, PyPlasma_wait_ok fd ids timeout 0 statuses hfd (by omega)
    (by omega) (not_lt.mpr ht), ?_, ?_⟩
  · simp
  · intro x
    simp [List.mem_filter, List.mem_dedup]

/-- Witness for C8 at a concrete call where every id is in fact ready. -/
theorem wait_zero_num_returns_witness :
    ∃ r, PyPlasma_wait 0 [10, 20, 30] 5 0 [.Local, .Local, .Remote] = .ok r ∧
      r.ready_ids = [] ∧ ∀ x, x ∈ r.remaining_ids ↔ x ∈ [10, 20, 30] :=
  wait_zero_num_returns 0 [10, 20, 30] 5 [.Local, .Local, .Remote]
    (by decide) (by decide)

/-- C9: every object request constructed by wait carries the query scope
`PLASMA_QUERY_ANYWHERE`; the local-only scope is never used. -/
theorem wait_query_anywhere (ids : List ObjectID) (r : ObjectRequest)
    (hr : r ∈ buildObjectRequests ids) :
    r.type = .PLASMA_QUERY_ANYWHERE ∧ r.type ≠ .PLASMA_QUERY_LOCAL := by
  simp only [buildObjectRequests, List.mem_map] at hr
  obtain ⟨oid, _, rfl⟩ := hr
  exact ⟨rfl, fun h => ObjectRequestType.noConfusion h⟩

/-- Witness for C9 at a concrete request of a one-id wait call. -/
theorem wait_query_anywhere_witness :
    ({ object_id := 7, type := .PLASMA_QUERY_ANYWHERE } : ObjectRequest).type =
      .PLASMA_QUERY_ANYWHERE ∧
    ({ object_id := 7, type := .PLASMA_QUERY_ANYWHERE } : ObjectRequest).type ≠
      .PLASMA_QUERY_LOCAL :=
  wait_query_anywhere [7] { object_id := 7, type := .PLASMA_QUERY_ANYWHERE } (by decide)

/-- C3: get returns one entry per input id, in input order: a read-only
(data, metadata) memory-view pair when the object was retrieved (data size not
-1) and the absence marker None, not an error, when it was not. -/
theorem get_length_and_entries (ids : List ObjectID) (timeout_ms : Int)
    (bufs : List ObjectBuffer) (h : bufs.length = ids.length) :
    (PyPlasma_get ids timeout_ms bufs).length = ids.length ∧
    ∀ i ob, bufs.get? i = some ob →
      (PyPlasma_get ids timeout_ms bufs).get? i =
        some (if ob.data_size = -1 then none
              else some ({ mem := ob.data, len := ob.data_size, writable := false },
                         { mem := ob.metadata, len := ob.metadata_size, writable := false })) := by
  constructor
  · simp [PyPlasma_get, h]
  · intro i ob hob
    simp only [PyPlasma_get, List.get?_map, hob, Option.map_some]
    by_cases hd : ob.data_size = -1 <;> simp [hd]

/-- Witness for C3: one retrieved object and one absent object. -/
theorem get_length_and_entries_witness :
    (PyPlasma_get [5, 6] 0
      [{ data_size := 3, data := [1, 2, 3], metadata_size := 0, metadata := [] },
       { data_size := -1, data := [], metadata_size := -1, metadata := [] }]).length =
      ([5, 6] : List ObjectID).length ∧
    ∀ i ob,
      ([{ data_size := 3, data := [1, 2, 3], metadata_size := 0, metadata := [] },
        { data_size := -1, data := [], metadata_size := -1, metadata := [] }] :
          List ObjectBuffer).get? i = some ob →
      (PyPlasma_get [5, 6] 0
        [{ data_size := 3, data := [1, 2, 3], metadata_size := 0, metadata := [] },
         { data_size := -1, data := [], metadata_size := -1, metadata := [] }]).get? i =
        some (if ob.data_size = -1 then none
              else some ({ mem := ob.data, len := ob.data_size, writable := false },
                         { mem := ob.metadata, len := ob.metadata_size, writable := false })) :=
  get_length_and_entries [5, 6] 0
    [{ data_size := 3, data := [1, 2, 3], metadata_size := 0, metadata := [] },
     { data_size := -1, data := [], metadata_size := -1, metadata := [] }] (by decide)

/-- C4: create reports object-exists and store-full through two distinct
dedicated error types, neither the generic RuntimeError nor a TypeError, and
when neither condition occurs it returns a writable buffer of exactly `size`
bytes. -/
theorem create_distinguishes_errors (object_id : ObjectID) (size : Int)
    (md : List Nat) (data : List Nat) :
    (∃ e1 e2,
      PyPlasma_create object_id size (.bytearray md) .PlasmaObjectExists data =
        .error e1 ∧
      PyPlasma_create object_id size (.bytearray md) .PlasmaStoreFull data =
        .error e2 ∧
      e1 ≠ e2 ∧
      (∀ m, e1 ≠ .RuntimeError m ∧ e2 ≠ .RuntimeError m) ∧
      (∀ m, e1 ≠ .TypeError m ∧ e2 ≠ .TypeError m)) ∧
    PyPlasma_create object_id size (.bytearray md) .Ok data =
      .ok { mem := data, len := size, writable := true } :=
  ⟨⟨_, _, rfl, rfl, by decide,
    fun m => ⟨fun hc => PyErr.noConfusion hc, fun hc => PyErr.noConfusion hc⟩,
    fun m => ⟨fun hc => PyErr.noConfusion hc, fun hc => PyErr.noConfusion hc⟩⟩, rfl⟩

/-- C10: create with a metadata argument that is not a bytearray reports a
TypeError whatever the store would answer, so the store is never consulted and
no object is created. -/
theorem create_metadata_type_error (object_id : ObjectID) (size : Int)
    (s : Status) (data : List Nat) :
    PyPlasma_create object_id size .notByteArray s data =
      .error (.TypeError "metadata must be a bytearray") := rfl

/-- C5: a successfully read notification frame decodes to a triple
(object_id, data_size, metadata_size); a deletion frame yields sizes (-1, -1)
and a creation frame yields its own size fields, which are nonnegative under
the wire contract. -/
theorem receive_notification_decodes (object_info : ObjectInfo)
    (hwf : WellFormedFrame object_info) :
    (object_info.is_deletion = true →
      PyPlasma_receive_notification (some object_info) =
        .ok (object_info.object_id, -1, -1)) ∧
    (object_info.is_deletion = false →
      PyPlasma_receive_notification (some object_info) =
        .ok (object_info.object_id, object_info.data_size,
             object_info.metadata_size) ∧
      0 ≤ object_info.data_size ∧ 0 ≤ object_info.metadata_size) := by
  have hwf' := hwf
  unfold WellFormedFrame at hwf'
  exact ⟨fun hd => by simp [PyPlasma_receive_notification, hd],
    fun hd => ⟨by simp [PyPlasma_receive_notification, hd], hwf' hd⟩⟩

/-- Witness for C5 at a concrete creation frame. -/
theorem receive_notification_decodes_witness :
    ((⟨[3], false, 5, 0⟩ : ObjectInfo).is_deletion = true →
      PyPlasma_receive_notification (some ⟨[3], false, 5, 0⟩) =
        .ok ((⟨[3], false, 5, 0⟩ : ObjectInfo).object_id, -1, -1)) ∧
    ((⟨[3], false, 5, 0⟩ : ObjectInfo).is_deletion = false →
      PyPlasma_receive_notification (some ⟨[3], false, 5, 0⟩) =
        .ok ((⟨[3], false, 5, 0⟩ : ObjectInfo).object_id,
             (⟨[3], false, 5, 0⟩ : ObjectInfo).data_size,
             (⟨[3], false, 5, 0⟩ : ObjectInfo).metadata_size) ∧
      0 ≤ (⟨[3], false, 5, 0⟩ : ObjectInfo).data_size ∧
      0 ≤ (⟨[3], false, 5, 0⟩ : ObjectInfo).metadata_size) :=
  receive_notification_decodes ⟨[3], false, 5, 0⟩ (by decide)

/-- C6: fetch and transfer report the connectivity error exactly when the
manager channel is absent, so with a peer channel present neither raises it;
the check precedes any request to the store. -/
theorem fetch_transfer_connectivity (fd : Int) (ids : List ObjectID) (s : Status)
    (addr : String) (port : Int) (oid : ObjectID) (t : Status) :
    (PyPlasma_fetch fd ids s = .error notConnectedError ↔ fd = -1) ∧
    (PyPlasma_transfer fd addr port oid t = .error notConnectedError ↔ fd = -1) := by
  constructor
  · constructor
    · intro h
      by_contra hfd
      unfold PyPlasma_fetch at h
      rw [if_neg hfd] at h
      cases s <;> exact absurd h (by decide)
    · intro h
      unfold PyPlasma_fetch
      rw [if_pos h]
  · constructor
    · intro h
      by_contra hfd
      unfold PyPlasma_transfer at h
      rw [if_neg hfd] at h
      cases t <;> exact absurd h (by decide)
    · intro h
      unfold PyPlasma_transfer
      rw [if_pos h]

/-- C7: hash returns either a digest of exactly the fixed digest size or None
when the object cannot be read, and it never reports an error. -/
theorem hash_digest_or_none (success : Bool) (digest : List Nat)
    (hd : digest.length = kDigestSize) :
    (∀ e, PyPlasma_hash success digest ≠ .error e) ∧
    (PyPlasma_hash success digest = .ok none ∨
      ∃ d, PyPlasma_hash success digest = .ok (some d) ∧ d.length = kDigestSize) ∧
    (success = false → PyPlasma_hash success digest = .ok none) := by
  cases success with
  | false =>
    exact ⟨fun e => by simp [PyPlasma_hash], Or.inl (by simp [PyPlasma_hash]),
      fun _ => by simp [PyPlasma_hash]⟩
  | true =>
    exact ⟨fun e => by simp [PyPlasma_hash],
      Or.inr ⟨digest, by simp [PyPlasma_hash], hd⟩,
      fun hc => Bool.noConfusion hc⟩

/-- Witness for C7 at a successful hash of a digest-sized buffer. -/
theorem hash_digest_or_none_witness :
    (∀ e, PyPlasma_hash true (List.replicate 8 0) ≠ .error e) ∧
    (PyPlasma_hash true (List.replicate 8 0) = .ok none ∨
      ∃ d, PyPlasma_hash true (List.replicate 8 0) = .ok (some d) ∧
        d.length = kDigestSize) ∧
    (true = false → PyPlasma_hash true (List.replicate 8 0) = .ok none) :=
  hash_digest_or_none true (List.replicate 8 0) (by decide)

end Plasma
